import Mathlib

/-!
Verification of the guest-lookup Telegram bot (src/main.py, src/config.py)
against its natural-language specification.

The Python code is shallowly embedded: pure helpers become Lean functions,
the database and the network are modelled by explicit scenario parameters,
and the double-checked pool initialization becomes a small labelled
transition system.  Strings are Lean Strings; Python `str.isdigit` is
modelled by `Char.isDigit` (ASCII digits — every input appearing in the
claims is ASCII).
-/

namespace AmveraBot

/-- main.py line 141: the digit characters kept from the input, in order
(the join of `ch for ch in (phone or "") if ch.isdigit()`). -/
def digitsOf (s : String) : List Char := s.data.filter Char.isDigit

/-- main.py lines 139-142, `BotService.normalize_phone`: strip non-digits,
then `digits[-10:] if len(digits) >= 10 else digits` — the LAST ten digits
when at least ten are present, otherwise the digits unchanged. -/
def normalize_phone (phone : String) : String :=
  let digits := digitsOf phone
  if digits.length ≥ 10 then String.mk (digits.drop (digits.length - 10))
  else String.mk digits

/-- A Python value that can sit in a stored bonus-balance cell: NULL, an
integer, or a string (the decimal-typed column arrives as a numeric string
through `str(value)`). -/
inductive Value
  | none
  | int (i : Int)
  | str (s : String)
deriving DecidableEq

/-- Python `str(value)` on the modelled values (`str(None) = "None"`). -/
def pyStr : Value → String
  | Value.none => "None"
  | Value.int i => toString i
  | Value.str s => s

/-- Python truthiness of the modelled values: `None`, `0` and `""` are falsy. -/
def Value.truthy : Value → Bool
  | Value.none => false
  | Value.int i => i ≠ 0
  | Value.str s => s ≠ ""

/-- Numeric value of a list of ASCII digit characters, most significant
first. -/
def digitsVal (l : List Char) : Nat :=
  l.foldl (fun a c => a * 10 + (c.toNat - 48)) 0

/-- Truncated-toward-zero value of an unsigned decimal numeral
`digits [ "." digits ]`, requiring at least one digit overall (the grammar
`Decimal` accepts for finite unsigned numbers without exponent); the
fractional digits are dropped, as `int()` truncates toward zero. -/
def decCore (l : List Char) : Option Nat :=
  match l.dropWhile Char.isDigit with
  | [] =>
      if l.takeWhile Char.isDigit = [] then Option.none
      else some (digitsVal (l.takeWhile Char.isDigit))
  | c :: fp =>
      if c = '.' ∧ fp.all Char.isDigit ∧ (l.takeWhile Char.isDigit ≠ [] ∨ fp ≠ []) then
        some (digitsVal (l.takeWhile Char.isDigit))
      else Option.none

/-- Leading and trailing whitespace removed, as `Decimal(str)` does. -/
def stripWs (l : List Char) : List Char :=
  ((l.dropWhile Char.isWhitespace).reverse.dropWhile Char.isWhitespace).reverse

/-- Modelled `int(Decimal(s))` for finite decimal numeric strings: optional
surrounding whitespace, an optional sign, integer digits and an optional
fractional part; `int` truncates toward zero.  Exponents and the special
values NaN/Infinity are outside the model (no stored balance in the claims
uses them). -/
def int_Decimal (s : String) : Option Int :=
  match stripWs s.data with
  | [] => Option.none
  | c :: rest =>
      if c = '-' then (decCore rest).map (fun n => -(n : Int))
      else if c = '+' then (decCore rest).map (fun n => ((n : Nat) : Int))
      else (decCore (c :: rest)).map (fun n => ((n : Nat) : Int))

/-- main.py lines 198-205, `BotService.format_bonus_amount`:
`int(Decimal(str(value)))` with `InvalidOperation`/`TypeError`/`ValueError`
caught and replaced by 0. -/
def format_bonus_amount (value : Value) : Int :=
  match int_Decimal (pyStr value) with
  | some i => i
  | Option.none => 0

/-- A calendar date (the `last_date_visit` column arrives as a
`datetime`; only the date part matters to the code). -/
structure Date where
  year : Nat
  month : Nat
  day : Nat
deriving DecidableEq

/-- Gregorian leap-year rule. -/
def isLeap (y : Nat) : Bool := (y % 4 = 0 ∧ y % 100 ≠ 0) ∨ y % 400 = 0

/-- Length of a month in the Gregorian calendar. -/
def daysInMonth (y m : Nat) : Nat :=
  if m = 2 then (if isLeap y then 29 else 28)
  else if m = 4 ∨ m = 6 ∨ m = 9 ∨ m = 11 then 30
  else 31

/-- dateutil `relativedelta(months=12)` applied to a date: the same month of
the next year, the day clamped into the target month (Feb 29 → Feb 28). -/
def addMonths12 (d : Date) : Date :=
  ⟨d.year + 1, d.month, min d.day (daysInMonth (d.year + 1) d.month)⟩

/-- Number of leap years strictly before year `y` (counting from year 1), in
the Gregorian rule. -/
def leapsBefore (y : Nat) : Nat := (y - 1) / 4 - (y - 1) / 100 + (y - 1) / 400

/-- Days in year `y` strictly before month `m`. -/
def daysBeforeMonth (y m : Nat) : Nat :=
  ((List.range (m - 1)).map (fun k => daysInMonth y (k + 1))).sum

/-- Rata-die ordinal of a calendar date: the number of days from the epoch
(0001-01-01 has ordinal 1).  Two dates lie `n` calendar days apart exactly
when their ordinals differ by `n`. -/
def dateOrdinal (d : Date) : Nat :=
  365 * (d.year - 1) + leapsBefore d.year + daysBeforeMonth d.year d.month + d.day

/-- Modelled from the spec: the claimed "default-expiry-days" offset — `e` is
the last-visit date `d` plus `n` calendar days (the claim's default is 365).
No such configurable parameter exists in src/config.py; src/main.py uses a
fixed `relativedelta(months=12)` instead (`addMonths12`).  This definition
exists only to compare the spec's wording with the code. -/
def specPlusDays (d : Date) (n : Nat) (e : Date) : Prop :=
  dateOrdinal e = dateOrdinal d + n

instance specPlusDays.dec (d : Date) (n : Nat) (e : Date) : Decidable (specPlusDays d n e) :=
  inferInstanceAs (Decidable (dateOrdinal e = dateOrdinal d + n))

/-- Zero-padded two-digit rendering used by `%d` and `%m`. -/
def pad2 (n : Nat) : String := if n < 10 then "0" ++ toString n else toString n

/-- `strftime("%d.%m.%Y")` on a date. -/
def strftime_dmY (d : Date) : String :=
  pad2 d.day ++ "." ++ pad2 d.month ++ "." ++ toString d.year

/-- One row of the `bonuses_balance` projection queried at main.py
lines 71-75: first name, loyalty level, bonus balance, last visit date. -/
structure Row where
  first_name : Option String
  loyalty_level : Option String
  bonus_balances : Value
  last_date_visit : Option Date
deriving DecidableEq

/-- The guest dict built by `parse_guest_info`. -/
structure GuestInfo where
  first_name : String
  loyalty_level : String
  bonus_balances : Value
  expire_date : String
deriving DecidableEq

/-- Python `x or default` on an optional string: `None` and `""` are replaced
by the default. -/
def orDefaultStr (v : Option String) (d : String) : String :=
  match v with
  | Option.none => d
  | some s => if s = "" then d else s

/-- main.py lines 160-179, `BotService.parse_guest_info`: `None` row maps to
`None`; the expiry date is the sentinel "Неизвестно" when `last_date_visit`
is falsy, otherwise `(last_visit + relativedelta(months=12)).strftime("%d.%m.%Y")`
(the guarding `except` branch is unreachable for valid dates, so the
embedding is total); names default via Python `or`. -/
def parse_guest_info (row : Option Row) : Option GuestInfo :=
  match row with
  | Option.none => Option.none
  | some r =>
      let expire_date :=
        match r.last_date_visit with
        | Option.none => "Неизвестно"
        | some lv => strftime_dmY (addMonths12 lv)
      some
        { first_name := orDefaultStr r.first_name "Гость",
          loyalty_level := orDefaultStr r.loyalty_level "—",
          bonus_balances := if r.bonus_balances.truthy then r.bonus_balances else Value.int 0,
          expire_date := expire_date }

/-- main.py line 65, `MSG_INVALID_CONTACT`. -/
def MSG_INVALID_CONTACT : String :=
  "❌ Вы можете проверить информацию только для своего номера телефона."

/-- main.py line 66, `MSG_NO_BONUS`. -/
def MSG_NO_BONUS : String := "Бонусы для указанного номера не найдены."

/-- main.py line 274: the apology sent when `get_guest_bonus` raises. -/
def MSG_FETCH_ERROR : String := "Произошла ошибка при получении данных. Попробуйте позже."

/-- `MSG_BALANCE_TEMPLATE` (main.py line 67) applied via `str.format` at
main.py lines 283-287. -/
def balanceText (first_name : String) (amount : Int) (level : String) : String :=
  "👋 " ++ first_name ++ ", у Вас накоплено бонусов " ++ toString amount ++
    " рублей.\nВаш уровень лояльности — " ++ level ++ "."

/-- `MSG_EXPIRY_TEMPLATE` (main.py line 68) applied via `str.format` at
main.py line 289. -/
def expiryText (date : String) : String := "\nСрок действия бонусов: до " ++ date ++ "."

/-- One SQL statement issued to storage: the SELECT of main.py lines 71-75
keyed by the normalized phone, or the INSERT of main.py lines 77-80 with
(user id, phone, command). -/
inductive StorageCall
  | fetchUser (phone : String)
  | logUsage (user_id : Int) (phone : String) (command : String)
deriving DecidableEq

/-- The `RuntimeError("Database pool is unavailable")` raised at
main.py line 124. -/
inductive RuntimeErr
  | poolUnavailable
deriving DecidableEq

/-- Behavior of the external database during one request: pool construction
raises; the pool is fine but executing a statement raises; or statements
succeed and the SELECT answers with `r`. -/
inductive DbScenario
  | poolFail
  | stmtFail
  | answer (r : Option Row)
deriving DecidableEq

/-- main.py lines 144-158, `BotService.fetch_user_row`: an empty normalized
phone short-circuits to None before touching storage; a pool-construction
RuntimeError is re-raised (`except RuntimeError: raise`); any other storage
error is caught and turned into None.  Returns the outcome together with the
SELECT calls issued. -/
def fetch_user_row (db : DbScenario) (phone_number : String) :
    Except RuntimeErr (Option Row) × List StorageCall :=
  let clean_phone := normalize_phone phone_number
  if clean_phone = "" then (Except.ok Option.none, [])
  else
    match db with
    | DbScenario.poolFail => (Except.error RuntimeErr.poolUnavailable, [])
    | DbScenario.stmtFail => (Except.ok Option.none, [StorageCall.fetchUser clean_phone])
    | DbScenario.answer r => (Except.ok r, [StorageCall.fetchUser clean_phone])

/-- main.py lines 181-186, `BotService.get_guest_bonus`: falsy phone short
circuits to None, otherwise fetch then parse; exceptions propagate. -/
def get_guest_bonus (db : DbScenario) (phone_number : String) :
    Except RuntimeErr (Option GuestInfo) × List StorageCall :=
  if phone_number = "" then (Except.ok Option.none, [])
  else
    match fetch_user_row db phone_number with
    | (Except.ok row, calls) => (Except.ok (parse_guest_info row), calls)
    | (Except.error e, calls) => (Except.error e, calls)

/-- main.py lines 188-196, `BotService.log_usage_stat`: best-effort INSERT of
(user_id, phone, command); every exception — including the pool RuntimeError —
is caught and only logged.  Returns the INSERT calls issued (none when the
pool cannot be built; the statement is issued, even if it then fails). -/
def log_usage_stat (db : DbScenario) (user_id : Int) (phone command : String) :
    List StorageCall :=
  match db with
  | DbScenario.poolFail => []
  | DbScenario.stmtFail => [StorageCall.logUsage user_id phone command]
  | DbScenario.answer _ => [StorageCall.logUsage user_id phone command]

/-- The fields of an aiogram contact message used by `handle_contact`:
`message.contact.user_id` (absent when the shared card belongs to no
Telegram account), `message.contact.phone_number`, `message.from_user.id`. -/
structure ContactMessage where
  contact_user_id : Option Int
  contact_phone_number : String
  from_user_id : Int
deriving DecidableEq

/-- Observable outcome of `handle_contact`: the texts answered, in order, and
the storage statements issued, in order. -/
structure HandleResult where
  replies : List String
  calls : List StorageCall
deriving DecidableEq

/-- main.py lines 251-294, `handle_contact`: the ownership check
(`message.contact.user_id != message.from_user.id`, where an absent owner id
compares unequal to any sender id) answers the fixed rejection and returns
before any storage call; then the best-effort usage log, then the bonus
lookup — a RuntimeError from it is caught at lines 270-275 and answered with
the apology; a None resolution answers `MSG_NO_BONUS`; otherwise the balance
text, with the expiry line appended only when the coerced amount is
positive. -/
def handle_contact (db : DbScenario) (msg : ContactMessage) : HandleResult :=
  if msg.contact_user_id ≠ some msg.from_user_id then
    { replies := [MSG_INVALID_CONTACT], calls := [] }
  else
    let logCalls := log_usage_stat db msg.from_user_id msg.contact_phone_number "contact"
    match get_guest_bonus db msg.contact_phone_number with
    | (Except.error _, calls) =>
        { replies := [MSG_FETCH_ERROR], calls := logCalls ++ calls }
    | (Except.ok Option.none, calls) =>
        { replies := [MSG_NO_BONUS], calls := logCalls ++ calls }
    | (Except.ok (some guest_info), calls) =>
        let bonus_amount := format_bonus_amount guest_info.bonus_balances
        let response_text :=
          balanceText guest_info.first_name bonus_amount guest_info.loyalty_level ++
            (if bonus_amount > 0 then expiryText guest_info.expire_date else "")
        { replies := [response_text], calls := logCalls ++ calls }

/-- Outcome of the FastAPI endpoint: an HTTP response with a status code, or
an exception escaping the handler body (which the framework converts into a
server error, not the structured 400). -/
inductive WebhookOutcome
  | response (statusCode : Nat)
  | unhandledError
deriving DecidableEq

/-- main.py lines 297-310, `telegram_webhook`, parameterized over the JSON
body (`request.json()` outcome — NOT guarded by any try, so its failure
escapes the handler), whether the parsed value is a dict (line 300 runs the
unguarded `data.get("message") or data.get("update_id")`, which raises
AttributeError and escapes the handler when the body is JSON but not an
object), the `Update(**data)` model validation (whose failure yields the
400), and `dp.feed_update` (whose failure is caught, still answering
200). -/
def telegram_webhook {J U : Type} (body : Except Unit J) (isDict : J → Bool)
    (parseUpdate : J → Except Unit U) (feed : U → Except Unit Unit) : WebhookOutcome :=
  match body with
  | Except.error _ => WebhookOutcome.unhandledError
  | Except.ok data =>
      if isDict data then
        match parseUpdate data with
        | Except.error _ => WebhookOutcome.response 400
        | Except.ok upd =>
            match feed upd with
            | Except.error _ => WebhookOutcome.response 200
            | Except.ok _ => WebhookOutcome.response 200
      else WebhookOutcome.unhandledError

/-- The `_closing`/`_closed` flags read by `_pool_active` via getattr. -/
structure PoolHandle where
  closing : Bool
  closed : Bool
deriving DecidableEq

/-- main.py lines 99-104, `BotService._pool_active`. -/
def pool_active (pool : Option PoolHandle) : Bool :=
  match pool with
  | Option.none => false
  | some p => !p.closing && !p.closed

/-- main.py lines 106-125, `BotService._ensure_pool`, sequential behavior
(the interleaved behavior is the transition system `CStep` below):
`create` is the outcome of `asyncpg.create_pool`; the result is paired with
the new value of the `_pool` field, which is reset to None when construction
fails, just before `RuntimeError("Database pool is unavailable")` is
raised. -/
def ensure_pool (create : Except Unit PoolHandle) (pool : Option PoolHandle) :
    Except RuntimeErr PoolHandle × Option PoolHandle :=
  match pool with
  | some p =>
      if !p.closing && !p.closed then (Except.ok p, some p)
      else
        match create with
        | Except.ok q => (Except.ok q, some q)
        | Except.error _ => (Except.error RuntimeErr.poolUnavailable, Option.none)
  | Option.none =>
      match create with
      | Except.ok q => (Except.ok q, some q)
      | Except.error _ => (Except.error RuntimeErr.poolUnavailable, Option.none)

/-- Program counter of one request running `_ensure_pool` (main.py
lines 106-125) in the success case: the unguarded fast-path check of
line 107, waiting on `_pool_lock` (line 110), the re-check under the lock
(line 111), the `create_pool` call (lines 115-119), and completion. -/
inductive PC
  | start
  | waitLock
  | locked
  | constructing
  | done
deriving DecidableEq

/-- Shared state of `n` concurrent `_ensure_pool` callers: whether an active
pool is stored in `_pool`, who holds `_pool_lock`, each task's program
counter, and how many pool constructions have completed. -/
structure CState (n : Nat) where
  pool : Bool
  lock : Option (Fin n)
  pcs : Fin n → PC
  builds : Nat

/-- The first-call storm: no pool, lock free, every request about to run the
fast-path check. -/
def initState (n : Nat) : CState n :=
  { pool := false, lock := Option.none, pcs := fun _ => PC.start, builds := 0 }

/-- Interleaved small-step semantics of `_ensure_pool` with constructions
that succeed: the fast-path check returns immediately when the pool is
active, otherwise the task waits for the lock; the lock is acquired only
when free; the re-check under the lock returns (releasing the lock) when a
racing task already built the pool; otherwise the task constructs, stores
the pool, and releases the lock. -/
inductive CStep {n : Nat} : CState n → CState n → Prop
  | fastHit (s : CState n) (i : Fin n) (hpc : s.pcs i = PC.start) (hpool : s.pool = true) :
      CStep s { s with pcs := Function.update s.pcs i PC.done }
  | fastMiss (s : CState n) (i : Fin n) (hpc : s.pcs i = PC.start) (hpool : s.pool = false) :
      CStep s { s with pcs := Function.update s.pcs i PC.waitLock }
  | acquire (s : CState n) (i : Fin n) (hpc : s.pcs i = PC.waitLock)
      (hlock : s.lock = Option.none) :
      CStep s { s with lock := some i, pcs := Function.update s.pcs i PC.locked }
  | recheckHit (s : CState n) (i : Fin n) (hpc : s.pcs i = PC.locked) (hpool : s.pool = true) :
      CStep s { s with lock := Option.none, pcs := Function.update s.pcs i PC.done }
  | recheckMiss (s : CState n) (i : Fin n) (hpc : s.pcs i = PC.locked)
      (hpool : s.pool = false) :
      CStep s { s with pcs := Function.update s.pcs i PC.constructing }
  | build (s : CState n) (i : Fin n) (hpc : s.pcs i = PC.constructing) :
      CStep s { s with pool := true, builds := s.builds + 1, lock := Option.none,
                       pcs := Function.update s.pcs i PC.done }

/-- Inductive invariant of the double-checked initialization: a task inside
the critical section holds the lock; the number of completed constructions
is 1 exactly when the pool exists; a construction only runs while the pool
is absent; and a task only finishes once the pool exists. -/
def Inv {n : Nat} (s : CState n) : Prop :=
  (∀ i, (s.pcs i = PC.locked ∨ s.pcs i = PC.constructing) → s.lock = some i) ∧
  (s.builds = if s.pool then 1 else 0) ∧
  (∀ i, s.pcs i = PC.constructing → s.pool = false) ∧
  (∀ i, s.pcs i = PC.done → s.pool = true)

/-- First state of a single-caller run of `_ensure_pool`: past the failed
fast-path check, waiting on the lock. -/
def wit1 : CState 1 :=
  { initState 1 with pcs := Function.update (initState 1).pcs 0 PC.waitLock }

/-- Second state: the lock acquired, about to re-check. -/
def wit2 : CState 1 :=
  { wit1 with lock := some 0, pcs := Function.update wit1.pcs 0 PC.locked }

/-- Third state: past the failed re-check, constructing the pool. -/
def wit3 : CState 1 := { wit2 with pcs := Function.update wit2.pcs 0 PC.constructing }

/-- Final state: the pool built and stored, the lock released. -/
def wit4 : CState 1 :=
  { wit3 with pool := true, builds := wit3.builds + 1, lock := Option.none,
              pcs := Function.update wit3.pcs 0 PC.done }

theorem normalize_phone_eq (phone : String) :
    normalize_phone phone =
      (if (digitsOf phone).length ≥ 10 then
        String.mk ((digitsOf phone).drop ((digitsOf phone).length - 10))
      else String.mk (digitsOf phone)) := rfl

theorem digitsOf_all_digits (s : String) : ∀ c ∈ digitsOf s, c.isDigit := by
  intro c hc
  exact (List.mem_filter.mp hc).2

/-- C1: the claim asserts `normalize("89991234567") = normalize("79991234567")
= "79991234567"` and `normalize("123") = ""`; the code instead keeps the last
ten digits, giving `"9991234567"` in the first two cases and `"123"` (not the
empty string) in the third. -/
theorem C1_counterexample :
    normalize_phone "89991234567" = "9991234567" ∧
    normalize_phone "79991234567" = "9991234567" ∧
    normalize_phone "89991234567" ≠ "79991234567" ∧
    normalize_phone "123" = "123" ∧
    normalize_phone "123" ≠ "" := by
  refine ⟨by decide, by decide, by decide, by decide, by decide⟩

/-- C1 (amended): `normalize_phone` strips all non-digit characters and keeps
the LAST ten digits when at least ten remain, otherwise returns the digits
unchanged; the result consists of digits only and has length
`min (number of digits) 10` — never eleven; in particular both
"89991234567" and "79991234567" normalize to "9991234567", and "123"
normalizes to "123". -/
theorem C1_normalize_phone_keeps_last_ten (s : String) :
    (normalize_phone s).length = min (digitsOf s).length 10 ∧
    (∀ c ∈ (normalize_phone s).data, c.isDigit) ∧
    normalize_phone "89991234567" = "9991234567" ∧
    normalize_phone "79991234567" = "9991234567" ∧
    normalize_phone "123" = "123" := by
  refine ⟨?_, ?_, by decide, by decide, by decide⟩
  · unfold normalize_phone
    by_cases h : (digitsOf s).length ≥ 10
    · simp only [h, if_pos]
      have hlen : (String.mk ((digitsOf s).drop ((digitsOf s).length - 10))).length
          = (digitsOf s).length - ((digitsOf s).length - 10) := by
        simp [String.length, List.length_drop]
      rw [hlen]
      omega
    · simp only [h, if_neg, not_false_iff]
      have hlen : (String.mk (digitsOf s)).length = (digitsOf s).length := by
        simp [String.length]
      rw [hlen]
      omega
  · intro c hc
    unfold normalize_phone at hc
    by_cases h : (digitsOf s).length ≥ 10
    · simp only [h, if_pos] at hc
      have hmem : c ∈ digitsOf s := by
        have : c ∈ (digitsOf s).drop ((digitsOf s).length - 10) := hc
        exact List.mem_of_mem_drop this
      exact digitsOf_all_digits s c hmem
    · simp only [h, if_neg, not_false_iff] at hc
      exact digitsOf_all_digits s c hc

theorem dropWhile_eq_self_of_all {p : Char → Bool} (l : List Char)
    (h : ∀ c ∈ l, ¬ p c) : l.dropWhile p = l := by
  cases l with
  | nil => rfl
  | cons a t =>
      have ha : ¬ p a := h a (List.mem_cons_self a t)
      simp [List.dropWhile_cons, ha]

theorem stripWs_eq_self (l : List Char) (h : ∀ c ∈ l, ¬ c.isWhitespace) :
    stripWs l = l := by
  unfold stripWs
  rw [dropWhile_eq_self_of_all l h,
    dropWhile_eq_self_of_all l.reverse (fun c hc => h c (List.mem_reverse.mp hc)),
    List.reverse_reverse]

theorem isDigit_not_whitespace {c : Char} (h : c.isDigit) : ¬ c.isWhitespace := by
  intro hw
  simp [Char.isWhitespace] at hw
  rcases hw with ((h1 | h1) | h1) | h1 <;> subst h1 <;> exact absurd h (by decide)

theorem span_digits (rest : List Char) (hrest : ∀ c, rest.head? = some c → ¬ c.isDigit) :
    ∀ ds : List Char, (∀ c ∈ ds, c.isDigit) →
      (ds ++ rest).takeWhile Char.isDigit = ds ∧
      (ds ++ rest).dropWhile Char.isDigit = rest := by
  intro ds
  induction ds with
  | nil =>
      intro _
      cases rest with
      | nil => exact ⟨rfl, rfl⟩
      | cons r t =>
          have hr : ¬ r.isDigit := hrest r rfl
          exact ⟨by simp [List.takeWhile_cons, hr], by simp [List.dropWhile_cons, hr]⟩
  | cons a t ih =>
      intro hds
      have ha : a.isDigit := hds a (List.mem_cons_self a t)
      have iht := ih (fun c hc => hds c (List.mem_cons_of_mem a hc))
      exact ⟨by simp [List.takeWhile_cons, ha, iht.1], by simp [List.dropWhile_cons, ha, iht.2]⟩

theorem decCore_digits (ds : List Char) (hds : ∀ c ∈ ds, c.isDigit) (hne : ds ≠ []) :
    decCore ds = some (digitsVal ds) := by
  have h := span_digits [] (fun c hc => by simp at hc) ds hds
  rw [List.append_nil] at h
  unfold decCore
  rw [h.1, h.2]
  simp [hne]

theorem decCore_digits_dot (ds fp : List Char) (hds : ∀ c ∈ ds, c.isDigit)
    (hfp : ∀ c ∈ fp, c.isDigit) (hne : ds ≠ []) :
    decCore (ds ++ '.' :: fp) = some (digitsVal ds) := by
  have h := span_digits ('.' :: fp)
    (fun c hc => by
      simp at hc
      subst hc
      decide) ds hds
  unfold decCore
  rw [h.1, h.2]
  have hall : fp.all Char.isDigit = true := List.all_eq_true.mpr (fun c hc => hfp c hc)
  simp [hall, hne]

theorem int_Decimal_digits (ds : List Char) (hds : ∀ c ∈ ds, c.isDigit) (hne : ds ≠ []) :
    int_Decimal (String.mk ds) = some ((digitsVal ds : Nat) : Int) := by
  unfold int_Decimal
  have hstrip : stripWs (String.mk ds).data = ds :=
    stripWs_eq_self ds (fun c hc => isDigit_not_whitespace (hds c hc))
  rw [hstrip]
  cases ds with
  | nil => exact absurd rfl hne
  | cons d t =>
      have hd : d.isDigit := hds d (List.mem_cons_self d t)
      have hd1 : ¬ d = '-' := fun h => by subst h; exact absurd hd (by decide)
      have hd2 : ¬ d = '+' := fun h => by subst h; exact absurd hd (by decide)
      simp only [if_neg hd1, if_neg hd2]
      rw [decCore_digits (d :: t) hds hne]
      rfl

theorem int_Decimal_neg_digits (ds : List Char) (hds : ∀ c ∈ ds, c.isDigit) (hne : ds ≠ []) :
    int_Decimal (String.mk ('-' :: ds)) = some (-((digitsVal ds : Nat) : Int)) := by
  unfold int_Decimal
  have hstrip : stripWs (String.mk ('-' :: ds)).data = '-' :: ds :=
    stripWs_eq_self _ (by
      intro c hc
      rcases List.mem_cons.mp hc with h1 | h1
      · subst h1; decide
      · exact isDigit_not_whitespace (hds c h1))
  rw [hstrip]
  simp only [if_pos rfl]
  rw [decCore_digits ds hds hne]
  rfl

theorem int_Decimal_digits_dot (ds fp : List Char) (hds : ∀ c ∈ ds, c.isDigit)
    (hfp : ∀ c ∈ fp, c.isDigit) (hne : ds ≠ []) :
    int_Decimal (String.mk (ds ++ '.' :: fp)) = some ((digitsVal ds : Nat) : Int) := by
  unfold int_Decimal
  have hstrip : stripWs (String.mk (ds ++ '.' :: fp)).data = ds ++ '.' :: fp :=
    stripWs_eq_self _ (by
      intro c hc
      rcases List.mem_append.mp hc with h1 | h1
      · exact isDigit_not_whitespace (hds c h1)
      · rcases List.mem_cons.mp h1 with h2 | h2
        · subst h2; decide
        · exact isDigit_not_whitespace (hfp c h2))
  rw [hstrip]
  cases ds with
  | nil => exact absurd rfl hne
  | cons d t =>
      have hd : d.isDigit := hds d (List.mem_cons_self d t)
      have hd1 : ¬ d = '-' := fun h => by subst h; exact absurd hd (by decide)
      have hd2 : ¬ d = '+' := fun h => by subst h; exact absurd hd (by decide)
      simp only [List.cons_append, if_neg hd1, if_neg hd2]
      rw [← List.cons_append, decCore_digits_dot (d :: t) fp hds hfp hne]
      rfl

/-- C7: the claim asserts the coercion always yields a non-negative integer;
`format_bonus_amount` applied to the stored balance "-5" returns the negative
integer -5. -/
theorem C7_counterexample :
    format_bonus_amount (Value.str "-5") = -5 ∧
    format_bonus_amount (Value.str "-5") < 0 := by
  exact ⟨by decide, by decide⟩

/-- C7 (amended): the coercion is decimal-safe and total (the embedding never
fails): a digit string coerces to its value, a fractional part is truncated
away, a missing value (`None`) and unparseable strings coerce to 0 — but the
result has the sign of the stored value, so a negative stored balance yields
a negative integer, not a non-negative one. -/
theorem C7_format_bonus_amount_coercion (ds fp : List Char)
    (hds : ∀ c ∈ ds, c.isDigit) (hfp : ∀ c ∈ fp, c.isDigit) (hne : ds ≠ []) :
    format_bonus_amount (Value.str (String.mk ds)) = ((digitsVal ds : Nat) : Int) ∧
    format_bonus_amount (Value.str (String.mk ('-' :: ds))) = -((digitsVal ds : Nat) : Int) ∧
    format_bonus_amount (Value.str (String.mk (ds ++ '.' :: fp))) = ((digitsVal ds : Nat) : Int) ∧
    format_bonus_amount Value.none = 0 ∧
    format_bonus_amount (Value.str "") = 0 ∧
    format_bonus_amount (Value.str "abc") = 0 := by
  refine ⟨?_, ?_, ?_, by decide, by decide, by decide⟩
  · show format_bonus_amount (Value.str (String.mk ds)) = ((digitsVal ds : Nat) : Int)
    unfold format_bonus_amount
    rw [show pyStr (Value.str (String.mk ds)) = String.mk ds from rfl,
      int_Decimal_digits ds hds hne]
  · unfold format_bonus_amount
    rw [show pyStr (Value.str (String.mk ('-' :: ds))) = String.mk ('-' :: ds) from rfl,
      int_Decimal_neg_digits ds hds hne]
  · unfold format_bonus_amount
    rw [show pyStr (Value.str (String.mk (ds ++ '.' :: fp))) = String.mk (ds ++ '.' :: fp) from
        rfl,
      int_Decimal_digits_dot ds fp hds hfp hne]

theorem C7_format_bonus_amount_coercion_witness :
    format_bonus_amount (Value.str (String.mk ['1', '2', '5', '0'])) =
      ((digitsVal ['1', '2', '5', '0'] : Nat) : Int) :=
  (C7_format_bonus_amount_coercion ['1', '2', '5', '0'] ['7']
    (by decide) (by decide) (by decide)).1

/-- C6: the claim asserts the offset is a configurable default-expiry-days
parameter whose default of 365 days yields "2025-08-15" for last-visit
2024-08-15; the code adds a fixed 12 calendar months and formats DD.MM.YYYY,
producing the string "15.08.2025", and a 365-day offset disagrees with the
code's 12 months at last-visit 2024-02-15 (2025-02-14 versus 2025-02-15). -/
theorem C6_counterexample :
    (parse_guest_info (some ⟨some "Анна", some "Gold", Value.str "1250",
        some ⟨2024, 8, 15⟩⟩)).map GuestInfo.expire_date = some "15.08.2025" ∧
    "15.08.2025" ≠ "2025-08-15" ∧
    addMonths12 ⟨2024, 2, 15⟩ = ⟨2025, 2, 15⟩ ∧
    specPlusDays ⟨2024, 2, 15⟩ 365 ⟨2025, 2, 14⟩ ∧
    ¬ specPlusDays ⟨2024, 2, 15⟩ 365 (addMonths12 ⟨2024, 2, 15⟩) := by
  refine ⟨by decide, by decide, by decide, by decide, by decide⟩

/-- C6 (amended): the derived expiry is the sentinel "Неизвестно" when
last-visit is absent (never raising — the embedding is total); otherwise it is
last-visit plus a FIXED twelve calendar months (no configurable
default-expiry-days parameter exists in src/config.py), formatted DD.MM.YYYY;
for last-visit 2024-08-15 this yields "15.08.2025" — the calendar date
2025-08-15, which on that input coincides with a 365-day offset. -/
theorem C6_expire_date_twelve_months (r : Row) (lv : Date)
    (hlv : r.last_date_visit = some lv) :
    (parse_guest_info (some r)).map GuestInfo.expire_date
        = some (strftime_dmY (addMonths12 lv)) ∧
    (parse_guest_info (some { r with last_date_visit := Option.none })).map
        GuestInfo.expire_date = some "Неизвестно" ∧
    strftime_dmY (addMonths12 ⟨2024, 8, 15⟩) = "15.08.2025" ∧
    specPlusDays ⟨2024, 8, 15⟩ 365 (addMonths12 ⟨2024, 8, 15⟩) := by
  refine ⟨?_, ?_, by decide, by decide⟩
  · simp [parse_guest_info, hlv]
  · simp [parse_guest_info]

theorem C6_expire_date_twelve_months_witness :
    (parse_guest_info (some ⟨some "Анна", some "Gold", Value.str "1250",
        some ⟨2024, 8, 15⟩⟩)).map GuestInfo.expire_date
      = some (strftime_dmY (addMonths12 ⟨2024, 8, 15⟩)) :=
  (C6_expire_date_twelve_months ⟨some "Анна", some "Gold", Value.str "1250",
    some ⟨2024, 8, 15⟩⟩ ⟨2024, 8, 15⟩ rfl).1

/-- C3: when the event carries both a sender id and a contact-owner id and
they differ, `handle_contact` answers exactly the fixed rejection text and
issues no storage statement at all, under every database behavior; and a
request whose body parses to a well-formed Update is answered with status
200 by the webhook handler regardless of the dispatch outcome (business
rejection, not an HTTP error). -/
theorem C3_ownership_mismatch_rejected (db : DbScenario) (msg : ContactMessage)
    (cid : Int) (hc : msg.contact_user_id = some cid) (hne : cid ≠ msg.from_user_id) :
    handle_contact db msg = { replies := [MSG_INVALID_CONTACT], calls := [] } ∧
    (∀ feedRes : Except Unit Unit,
      telegram_webhook (Except.ok ()) (fun _ : Unit => true)
          (fun _ : Unit => Except.ok ()) (fun _ => feedRes)
        = WebhookOutcome.response 200) := by
  constructor
  · have hneq : msg.contact_user_id ≠ some msg.from_user_id := by
      rw [hc]
      intro h
      exact hne (Option.some.inj h)
    unfold handle_contact
    rw [if_pos hneq]
  · intro feedRes
    cases feedRes <;> rfl

theorem C3_ownership_mismatch_rejected_witness :
    handle_contact (DbScenario.answer Option.none) ⟨some 1, "79991234567", 2⟩
      = { replies := [MSG_INVALID_CONTACT], calls := [] } :=
  (C3_ownership_mismatch_rejected (DbScenario.answer Option.none)
    ⟨some 1, "79991234567", 2⟩ 1 rfl (by decide)).1

/-- C10: a contact carrying no owner user id (None) is treated as an
ownership mismatch — Python `None != sender_id` is true — so `handle_contact`
answers the fixed rejection and issues no storage statement, under every
database behavior. -/
theorem C10_absent_owner_rejected (db : DbScenario) (msg : ContactMessage)
    (hc : msg.contact_user_id = Option.none) :
    handle_contact db msg = { replies := [MSG_INVALID_CONTACT], calls := [] } := by
  have hneq : msg.contact_user_id ≠ some msg.from_user_id := by
    rw [hc]
    exact fun h => Option.noConfusion h
  unfold handle_contact
  rw [if_pos hneq]

theorem C10_absent_owner_rejected_witness :
    handle_contact (DbScenario.answer Option.none) ⟨Option.none, "79991234567", 42⟩
      = { replies := [MSG_INVALID_CONTACT], calls := [] } :=
  C10_absent_owner_rejected (DbScenario.answer Option.none)
    ⟨Option.none, "79991234567", 42⟩ rfl

/-- C2: the claim asserts every storage error, including pool acquisition, is
surfaced as "not found" (None) by the lookup; but `fetch_user_row` re-raises
the pool RuntimeError (`except RuntimeError: raise`, main.py lines 154-155),
so with a failing pool it yields the error, not `Except.ok None`. -/
theorem C2_counterexample :
    (fetch_user_row DbScenario.poolFail "79991234567").1
        = Except.error RuntimeErr.poolUnavailable ∧
    (fetch_user_row DbScenario.poolFail "79991234567").1 ≠ Except.ok Option.none := by
  constructor
  · rfl
  · intro h
    rw [show (fetch_user_row DbScenario.poolFail "79991234567").1
        = Except.error RuntimeErr.poolUnavailable from rfl] at h
    exact Except.noConfusion h

/-- C2 (amended): a storage error during query execution is caught inside
`fetch_user_row` and surfaced as None; a pool-construction failure is instead
re-raised as RuntimeError and caught only in `handle_contact`, which answers
the generic apology — and the webhook still answers a success status to its
caller in either case. -/
theorem C2_storage_error_split (msg : ContactMessage) (phone : String)
    (hown : msg.contact_user_id = some msg.from_user_id)
    (hclean : normalize_phone msg.contact_phone_number ≠ "") :
    (fetch_user_row DbScenario.stmtFail phone).1 = Except.ok Option.none ∧
    (fetch_user_row DbScenario.poolFail msg.contact_phone_number).1
        = Except.error RuntimeErr.poolUnavailable ∧
    (handle_contact DbScenario.poolFail msg).replies = [MSG_FETCH_ERROR] ∧
    (∀ feedRes : Except Unit Unit,
      telegram_webhook (Except.ok ()) (fun _ : Unit => true)
          (fun _ : Unit => Except.ok ()) (fun _ => feedRes)
        = WebhookOutcome.response 200) := by
  have hcond : ¬ msg.contact_user_id ≠ some msg.from_user_id := by
    rw [hown]
    exact fun h => h rfl
  have hpne : msg.contact_phone_number ≠ "" := by
    intro h
    apply hclean
    rw [h]
    rfl
  refine ⟨?_, ?_, ?_, ?_⟩
  · by_cases h : normalize_phone phone = "" <;> simp [fetch_user_row, h]
  · simp [fetch_user_row, hclean]
  · unfold handle_contact
    rw [if_neg hcond]
    have hg : get_guest_bonus DbScenario.poolFail msg.contact_phone_number
        = (Except.error RuntimeErr.poolUnavailable, []) := by
      simp [get_guest_bonus, hpne, fetch_user_row, hclean]
    rw [hg]
  · intro feedRes
    cases feedRes <;> rfl

theorem C2_storage_error_split_witness :
    (handle_contact DbScenario.poolFail ⟨some 42, "89991234567", 42⟩).replies
      = [MSG_FETCH_ERROR] :=
  (C2_storage_error_split ⟨some 42, "89991234567", 42⟩ "123" rfl (by decide)).2.2.1

/-- C9: the usage-log INSERT receives the phone exactly as shared in the
contact card — no masking exists anywhere in src/main.py: for contact phone
"79991234567" the logged phone is the raw "79991234567" itself, refuting the
claim that the stored phone is masked and never the raw digits. -/
theorem C9_counterexample :
    (handle_contact (DbScenario.answer Option.none) ⟨some 42, "79991234567", 42⟩).calls
        = [StorageCall.logUsage 42 "79991234567" "contact",
           StorageCall.fetchUser "9991234567"] := by
  decide

/-- C9 (amended): for every contact event passing the ownership check, when
the pool is available the usage-log write is issued with the sender id and
the RAW phone string of the contact card (main.py line 266 passes
`phone_number` through unchanged); no masking is applied before storage or
logging. -/
theorem C9_usage_log_raw_phone (db : DbScenario) (msg : ContactMessage)
    (hown : msg.contact_user_id = some msg.from_user_id)
    (hdb : db ≠ DbScenario.poolFail) :
    log_usage_stat db msg.from_user_id msg.contact_phone_number "contact"
        = [StorageCall.logUsage msg.from_user_id msg.contact_phone_number "contact"] ∧
    (handle_contact db msg).calls.take 1
        = [StorageCall.logUsage msg.from_user_id msg.contact_phone_number "contact"] := by
  have hcond : ¬ msg.contact_user_id ≠ some msg.from_user_id := by
    rw [hown]
    exact fun h => h rfl
  have hlog : log_usage_stat db msg.from_user_id msg.contact_phone_number "contact"
      = [StorageCall.logUsage msg.from_user_id msg.contact_phone_number "contact"] := by
    cases db with
    | poolFail => exact absurd rfl hdb
    | stmtFail => rfl
    | answer r => rfl
  refine ⟨hlog, ?_⟩
  unfold handle_contact
  rw [if_neg hcond]
  rcases hg : get_guest_bonus db msg.contact_phone_number with ⟨res, calls⟩
  rcases res with e | row
  · simp [hlog]
  · rcases row with _ | info
    · simp [hlog]
    · simp [hlog]

theorem C9_usage_log_raw_phone_witness :
    (handle_contact (DbScenario.answer Option.none) ⟨some 42, "79991234567", 42⟩).calls.take 1
      = [StorageCall.logUsage 42 "79991234567" "contact"] :=
  (C9_usage_log_raw_phone (DbScenario.answer Option.none) ⟨some 42, "79991234567", 42⟩
    rfl (by decide)).2

/-- C8: the claim asserts a payload that is not parseable JSON, or lacks the
required message/contact structure, is rejected with the structured 400; but
`await request.json()` (main.py line 299) sits outside every try block, so a
JSON parse failure escapes the handler unhandled instead of producing the
400; and a body that parses as JSON but is not an object — which lacks the
message structure and would fail Update validation — raises AttributeError
at the unguarded `data.get` of main.py line 300 and also escapes unhandled,
never reaching the 400 branch. -/
theorem C8_counterexample :
    telegram_webhook (Except.error ()) (fun _ : Unit => true)
        (fun _ : Unit => Except.ok ()) (fun _ => Except.ok ())
        = WebhookOutcome.unhandledError ∧
    telegram_webhook (Except.error ()) (fun _ : Unit => true)
        (fun _ : Unit => Except.ok ()) (fun _ => Except.ok ())
        ≠ WebhookOutcome.response 400 ∧
    telegram_webhook (Except.ok ()) (fun _ : Unit => false)
        (fun _ : Unit => (Except.error () : Except Unit Unit)) (fun _ => Except.ok ())
        = WebhookOutcome.unhandledError ∧
    telegram_webhook (Except.ok ()) (fun _ : Unit => false)
        (fun _ : Unit => (Except.error () : Except Unit Unit)) (fun _ => Except.ok ())
        ≠ WebhookOutcome.response 400 := by
  refine ⟨rfl, ?_, rfl, ?_⟩
  · intro h
    rw [show telegram_webhook (Except.error ()) (fun _ : Unit => true)
        (fun _ : Unit => Except.ok ()) (fun _ => Except.ok ())
        = WebhookOutcome.unhandledError from rfl] at h
    exact WebhookOutcome.noConfusion h
  · intro h
    rw [show telegram_webhook (Except.ok ()) (fun _ : Unit => false)
        (fun _ : Unit => (Except.error () : Except Unit Unit)) (fun _ => Except.ok ())
        = WebhookOutcome.unhandledError from rfl] at h
    exact WebhookOutcome.noConfusion h

/-- C8 (amended): the structured 400 is produced exactly when the body parses
as a JSON OBJECT but fails Update model validation; an unparseable JSON body
escapes the handler unhandled, and so does a JSON body that is not an object
(the unguarded `data.get` of main.py line 300 raises AttributeError before
the guarded Update construction) — a framework-level server error, not the
structured 400 in either case; every dispatch failure is absorbed and the
handler still answers 200. -/
theorem C8_webhook_propagation {J U : Type} (d : J) (isDict : J → Bool)
    (parseUpdate : J → Except Unit U) (feed : U → Except Unit Unit) :
    (telegram_webhook (Except.error ()) isDict parseUpdate feed
        = WebhookOutcome.unhandledError) ∧
    (isDict d = false →
      telegram_webhook (Except.ok d) isDict parseUpdate feed
        = WebhookOutcome.unhandledError) ∧
    (isDict d = true → ∀ e, parseUpdate d = Except.error e →
      telegram_webhook (Except.ok d) isDict parseUpdate feed
        = WebhookOutcome.response 400) ∧
    (isDict d = true → ∀ u, parseUpdate d = Except.ok u →
      telegram_webhook (Except.ok d) isDict parseUpdate feed
        = WebhookOutcome.response 200) ∧
    (telegram_webhook (Except.ok d) isDict parseUpdate feed = WebhookOutcome.response 400 →
      isDict d = true ∧ ∃ e, parseUpdate d = Except.error e) := by
  refine ⟨rfl, ?_, ?_, ?_, ?_⟩
  · intro hnd
    simp [telegram_webhook, hnd]
  · intro hd e he
    simp [telegram_webhook, hd, he]
  · intro hd u hu
    rcases hf : feed u with e2 | x <;> simp [telegram_webhook, hd, hu, hf]
  · intro h400
    cases hd : isDict d with
    | false =>
        rw [show telegram_webhook (Except.ok d) isDict parseUpdate feed
            = WebhookOutcome.unhandledError by simp [telegram_webhook, hd]] at h400
        exact WebhookOutcome.noConfusion h400
    | true =>
        refine ⟨rfl, ?_⟩
        rcases hp : parseUpdate d with e | u
        · exact ⟨e, rfl⟩
        · rcases hf : feed u with e2 | x <;>
            rw [show telegram_webhook (Except.ok d) isDict parseUpdate feed
                = WebhookOutcome.response 200 by simp [telegram_webhook, hd, hp, hf]] at h400 <;>
            exact absurd h400 (by decide)

theorem C8_webhook_propagation_witness :
    telegram_webhook (Except.ok ()) (fun _ : Unit => true) (fun _ : Unit => Except.ok ())
        (fun _ => Except.error ()) = WebhookOutcome.response 200 :=
  (C8_webhook_propagation () (fun _ : Unit => true) (fun _ : Unit => Except.ok ())
    (fun _ => Except.error ())).2.2.2.1 rfl () rfl

/-- C5: when the pool is not active and construction fails, `_ensure_pool`
leaves the `_pool` handle unset (None) and raises the "Database pool is
unavailable" RuntimeError — the failure is signaled, not swallowed — and a
later call with a succeeding construction can then build and store a pool. -/
theorem C5_failed_construction_resets (create : Except Unit PoolHandle)
    (pool : Option PoolHandle) (q : PoolHandle)
    (hactive : pool_active pool = false) (hfail : ∃ e, create = Except.error e) :
    ensure_pool create pool = (Except.error RuntimeErr.poolUnavailable, Option.none) ∧
    ensure_pool (Except.ok q) Option.none = (Except.ok q, some q) := by
  obtain ⟨e, he⟩ := hfail
  subst he
  constructor
  · cases pool with
    | none => rfl
    | some p =>
        have hflags : (!p.closing && !p.closed) = false := by
          simpa [pool_active] using hactive
        simp [ensure_pool, hflags]
  · rfl

theorem C5_failed_construction_resets_witness :
    ensure_pool (Except.error ()) Option.none
        = (Except.error RuntimeErr.poolUnavailable, Option.none) :=
  (C5_failed_construction_resets (Except.error ()) Option.none ⟨false, false⟩
    rfl ⟨(), rfl⟩).1

theorem update_mem_pair {n : Nat} (pcs : Fin n → PC) (i j : Fin n) (v a b : PC)
    (hj : Function.update pcs i v j = a ∨ Function.update pcs i v j = b) :
    (j = i ∧ (v = a ∨ v = b)) ∨ (j ≠ i ∧ (pcs j = a ∨ pcs j = b)) := by
  by_cases hji : j = i
  · subst hji
    rw [Function.update_same] at hj
    exact Or.inl ⟨rfl, hj⟩
  · rw [Function.update_noteq hji] at hj
    exact Or.inr ⟨hji, hj⟩

theorem update_eq_target {n : Nat} (pcs : Fin n → PC) (i j : Fin n) (v a : PC)
    (hj : Function.update pcs i v j = a) :
    (j = i ∧ v = a) ∨ (j ≠ i ∧ pcs j = a) := by
  by_cases hji : j = i
  · subst hji
    rw [Function.update_same] at hj
    exact Or.inl ⟨rfl, hj⟩
  · rw [Function.update_noteq hji] at hj
    exact Or.inr ⟨hji, hj⟩

theorem inv_init (n : Nat) : Inv (initState n) := by
  refine ⟨?_, ?_, ?_, ?_⟩
  · intro i hi
    rcases hi with h | h <;> exact absurd h (by simp [initState])
  · simp [initState]
  · intro i h
    exact absurd h (by simp [initState])
  · intro i h
    exact absurd h (by simp [initState])

theorem inv_step {n : Nat} {s t : CState n} (hs : Inv s) (hst : CStep s t) : Inv t := by
  obtain ⟨h1, h2, h3, h4⟩ := hs
  cases hst with
  | fastHit i hpc hpool =>
      refine ⟨?_, h2, ?_, ?_⟩
      · intro j hj
        rcases update_mem_pair s.pcs i j PC.done PC.locked PC.constructing hj with
          ⟨hji, hv⟩ | ⟨hji, hv⟩
        · rcases hv with hv | hv <;> exact absurd hv (by decide)
        · exact h1 j hv
      · intro j hj
        rcases update_eq_target s.pcs i j PC.done PC.constructing hj with
          ⟨hji, hv⟩ | ⟨hji, hv⟩
        · exact absurd hv (by decide)
        · exact h3 j hv
      · intro j hj
        exact hpool
  | fastMiss i hpc hpool =>
      refine ⟨?_, h2, ?_, ?_⟩
      · intro j hj
        rcases update_mem_pair s.pcs i j PC.waitLock PC.locked PC.constructing hj with
          ⟨hji, hv⟩ | ⟨hji, hv⟩
        · rcases hv with hv | hv <;> exact absurd hv (by decide)
        · exact h1 j hv
      · intro j hj
        rcases update_eq_target s.pcs i j PC.waitLock PC.constructing hj with
          ⟨hji, hv⟩ | ⟨hji, hv⟩
        · exact absurd hv (by decide)
        · exact h3 j hv
      · intro j hj
        rcases update_eq_target s.pcs i j PC.waitLock PC.done hj with
          ⟨hji, hv⟩ | ⟨hji, hv⟩
        · exact absurd hv (by decide)
        · exact h4 j hv
  | acquire i hpc hlock =>
      refine ⟨?_, h2, ?_, ?_⟩
      · intro j hj
        rcases update_mem_pair s.pcs i j PC.locked PC.locked PC.constructing hj with
          ⟨hji, hv⟩ | ⟨hji, hv⟩
        · subst hji
          rfl
        · have hsl := h1 j hv
          rw [hlock] at hsl
          exact absurd hsl (by simp)
      · intro j hj
        rcases update_eq_target s.pcs i j PC.locked PC.constructing hj with
          ⟨hji, hv⟩ | ⟨hji, hv⟩
        · exact absurd hv (by decide)
        · exact h3 j hv
      · intro j hj
        rcases update_eq_target s.pcs i j PC.locked PC.done hj with
          ⟨hji, hv⟩ | ⟨hji, hv⟩
        · exact absurd hv (by decide)
        · exact h4 j hv
  | recheckHit i hpc hpool =>
      refine ⟨?_, h2, ?_, ?_⟩
      · intro j hj
        rcases update_mem_pair s.pcs i j PC.done PC.locked PC.constructing hj with
          ⟨hji, hv⟩ | ⟨hji, hv⟩
        · rcases hv with hv | hv <;> exact absurd hv (by decide)
        · have hsl := h1 j hv
          have hsi := h1 i (Or.inl hpc)
          rw [hsi] at hsl
          exact absurd (Option.some.inj hsl).symm hji
      · intro j hj
        rcases update_eq_target s.pcs i j PC.done PC.constructing hj with
          ⟨hji, hv⟩ | ⟨hji, hv⟩
        · exact absurd hv (by decide)
        · have hc := h3 j hv
          rw [hpool] at hc
          exact absurd hc (by simp)
      · intro j hj
        exact hpool
  | recheckMiss i hpc hpool =>
      refine ⟨?_, h2, ?_, ?_⟩
      · intro j hj
        rcases update_mem_pair s.pcs i j PC.constructing PC.locked PC.constructing hj with
          ⟨hji, hv⟩ | ⟨hji, hv⟩
        · subst hji
          exact h1 _ (Or.inl hpc)
        · exact h1 j hv
      · intro j hj
        exact hpool
      · intro j hj
        rcases update_eq_target s.pcs i j PC.constructing PC.done hj with
          ⟨hji, hv⟩ | ⟨hji, hv⟩
        · exact absurd hv (by decide)
        · exact h4 j hv
  | build i hpc =>
      have hpf : s.pool = false := h3 i hpc
      have hb : s.builds = 0 := by
        rw [h2]
        simp [hpf]
      refine ⟨?_, ?_, ?_, ?_⟩
      · intro j hj
        rcases update_mem_pair s.pcs i j PC.done PC.locked PC.constructing hj with
          ⟨hji, hv⟩ | ⟨hji, hv⟩
        · rcases hv with hv | hv <;> exact absurd hv (by decide)
        · have hsl := h1 j hv
          have hsi := h1 i (Or.inr hpc)
          rw [hsi] at hsl
          exact absurd (Option.some.inj hsl).symm hji
      · show s.builds + 1 = if true then 1 else 0
        rw [hb]
        rfl
      · intro j hj
        rcases update_eq_target s.pcs i j PC.done PC.constructing hj with
          ⟨hji, hv⟩ | ⟨hji, hv⟩
        · exact absurd hv (by decide)
        · have hsl := h1 j (Or.inr hv)
          have hsi := h1 i (Or.inr hpc)
          rw [hsi] at hsl
          exact absurd (Option.some.inj hsl).symm hji
      · intro j hj
        rfl

theorem inv_of_reach {n : Nat} {s : CState n}
    (h : Relation.ReflTransGen CStep (initState n) s) : Inv s := by
  induction h with
  | refl => exact inv_init n
  | tail hr hstep ih => exact inv_step ih hstep

/-- C4: in the interleaved model of `_ensure_pool`, for every state reachable
from the first-call storm of `n ≥ 1` concurrent callers: at most one task is
ever inside the construction step (the lock guards the check-construct-store
sequence and the pool is re-checked after entering it), the number of
completed pool constructions never exceeds one, and when every caller has
finished exactly one construction has occurred. -/
theorem C4_single_construction (n : Nat) (s : CState n) (hn : 1 ≤ n)
    (hreach : Relation.ReflTransGen CStep (initState n) s) :
    (∀ i j, s.pcs i = PC.constructing → s.pcs j = PC.constructing → i = j) ∧
    s.builds ≤ 1 ∧
    ((∀ i, s.pcs i = PC.done) → s.builds = 1) := by
  obtain ⟨h1, h2, h3, h4⟩ := inv_of_reach hreach
  refine ⟨?_, ?_, ?_⟩
  · intro i j hi hj
    have hsi := h1 i (Or.inr hi)
    have hsj := h1 j (Or.inr hj)
    rw [hsi] at hsj
    exact Option.some.inj hsj
  · rw [h2]
    cases hsp : s.pool <;> simp
  · intro hdone
    have hp := h4 ⟨0, hn⟩ (hdone ⟨0, hn⟩)
    rw [h2, hp]
    rfl

theorem C4_single_construction_witness : wit4.builds = 1 := by
  have h01 : CStep (initState 1) wit1 := CStep.fastMiss (initState 1) 0 rfl rfl
  have h12 : CStep wit1 wit2 := CStep.acquire wit1 0 (by decide) rfl
  have h23 : CStep wit2 wit3 := CStep.recheckMiss wit2 0 (by decide) rfl
  have h34 : CStep wit3 wit4 := CStep.build wit3 0 (by decide)
  have hreach : Relation.ReflTransGen CStep (initState 1) wit4 :=
    Relation.ReflTransGen.tail (Relation.ReflTransGen.tail (Relation.ReflTransGen.tail
      (Relation.ReflTransGen.tail Relation.ReflTransGen.refl h01) h12) h23) h34
  refine (C4_single_construction 1 wit4 (by decide) hreach).2.2 ?_
  intro i
  fin_cases i
  decide

end AmveraBot
